import Mathlib

/-!
Verification of the strtsmrt video-processing pipeline.

This file is a shallow embedding of the pipeline implemented in the
repository's Supabase edge functions and Express server:

* the edge-function handler (download, ffprobe, GPS extraction,
  start-time resolution, metadata persistence, segmentation,
  per-clip GPS association, upload and Clip persistence, cleanup);
* its helpers `parseGpsData` and `getVideoStartTime` (two variants
  exist in the source and they differ; both are embedded);
* the Express server's GPS validity filter `isValidGpsCoordinate`
  and its ExifTool record-conversion loop.

Conventions of the embedding:
* timestamps are `Int` millisecond values (the value of
  `Date.getTime()` for the JS `Date` objects in the source);
* JS numbers are `ℚ`; where the source's IEEE-754 double rounding is
  observable (the clip-acceptance threshold) it is modelled exactly by
  `toDouble`, round-to-nearest-even into 53 significant bits;
* the external JS date parser (`new Date(string)`) is a parameter
  `parseDate : String → Option Int`, `none` standing for an Invalid
  Date (`isNaN(d.getTime())`);
* external effects (storage download, DB writes, subprocess results)
  are oracle inputs in a `PipelineEnv`, and the database row plus the
  scratch-file footprint form an explicit `PipelineState`.
-/

/-- A GPS sample as produced by `parseGpsData` in the edge functions:
`{ timestamp, latitude, longitude }` with the timestamp normalised to an
absolute instant (here: epoch milliseconds). -/
structure GPSRecord where
  timestamp : Int
  latitude : ℚ
  longitude : ℚ
deriving DecidableEq

/-- One well-formed regex match of the edge functions' GPS pattern
`(\d{4}:\d{2}:\d{2} \d{2}:\d{2}:\d{2}Z)\s*([+-]?\d+\.\d+)\s*([+-]\d+\.\d+)`:
a timestamp (already converted to epoch milliseconds by the
`new Date(...)` normalisation in the source, which is injective and
monotone on well-formed stamps) and the two signed decimals. -/
structure RawTriple where
  ts : Int
  lat : ℚ
  lon : ℚ
deriving DecidableEq

/-- The record the edge functions push for one regex match. -/
def RawTriple.toRecord (t : RawTriple) : GPSRecord :=
  ⟨t.ts, t.lat, t.lon⟩

/-- Comparator of the source's
`records.sort((a, b) => new Date(a.timestamp).getTime() - new Date(b.timestamp).getTime())`. -/
def gpsLe (a b : GPSRecord) : Prop :=
  a.timestamp ≤ b.timestamp

instance : DecidableRel gpsLe := fun a b => Int.decLe a.timestamp b.timestamp

instance : IsTotal GPSRecord gpsLe := ⟨fun a b => Int.le_total a.timestamp b.timestamp⟩

instance : IsTrans GPSRecord gpsLe := ⟨fun _ _ _ h h2 => le_trans h h2⟩

/-- Embedding of `parseGpsData` (edge functions, both copies): every
regex match yields one record, no filtering of any kind, then a stable
sort ascending by timestamp.  JS `Array.prototype.sort` is stable; we
model it with the stable `List.insertionSort`. -/
def parseGpsData (found : List RawTriple) : List GPSRecord :=
  List.insertionSort gpsLe (found.map RawTriple.toRecord)

/-- Removal of the first occurrence of `pat`, as JS
`s.replace(pat, String.empty)` does for a plain-string pattern. -/
def replaceFirst (s pat : String) : String :=
  match s.splitOn pat with
  | [] => s
  | [a] => a
  | a :: b :: rest => a ++ String.intercalate pat (b :: rest)

/-- The tag-value normalisation in `getVideoStartTime`:
`tags[key].replace(given, String.empty).trim()` with the marker `UTC`. -/
def stripUTC (v : String) : String :=
  (replaceFirst v "UTC").trim

/-- The tag-scanning loop of `getVideoStartTime` in the primary edge
function: for each key in order, if the tag is present (JS truthiness:
a present, non-empty string), strip the marker and parse; a successful
parse returns, a failed parse falls through to the next key. -/
def tryParseTags (parseDate : String → Option Int)
    (tags : List (String × String)) : List String → Option Int
  | [] => none
  | k :: ks =>
    match tags.lookup k with
    | some v =>
      if v = "" then tryParseTags parseDate tags ks
      else
        match parseDate (stripUTC v) with
        | some t => some t
        | none => tryParseTags parseDate tags ks
    | none => tryParseTags parseDate tags ks

/-- Embedding of `getVideoStartTime` from the primary edge function:
keys `encoded_date` then `creation_time`, each parse validated with
`!isNaN(dt.getTime())`; fallback to the first GPS record's timestamp;
final fallback to the current wall-clock time `now`. -/
def getVideoStartTime (parseDate : String → Option Int) (now : Int)
    (tags : List (String × String)) (gps : List GPSRecord) : Int :=
  match tryParseTags parseDate tags ["encoded_date", "creation_time"] with
  | some t => t
  | none =>
    match gps with
    | [] => now
    | p :: _ => p.timestamp

/-- The first present (truthy) tag among the given keys, as tested by
`if (formatTags[tag])` in the variant resolver. -/
def firstPresentTag (tags : List (String × String)) : List String → Option String
  | [] => none
  | k :: ks =>
    match tags.lookup k with
    | some v => if v = "" then firstPresentTag tags ks else some v
    | none => firstPresentTag tags ks

/-- Embedding of `getVideoStartTime` from the second edge function
(the `serve` handler): it scans keys `encoded_date`, `creation_time`,
`date` and, for the first present tag, executes
`return new Date(dateStr)` inside a try/catch.  `new Date` never
throws, so the catch intended to skip unparseable tags is dead code and
the possibly-Invalid Date is returned as is; the result is therefore an
`Option Int`, `none` being an Invalid Date. -/
def getVideoStartTimeVariant (parseDate : String → Option Int) (now : Int)
    (tags : List (String × String)) (gps : List GPSRecord) : Option Int :=
  match firstPresentTag tags ["encoded_date", "creation_time", "date"] with
  | some v => parseDate (stripUTC v)
  | none =>
    match gps with
    | [] => some now
    | p :: _ => some p.timestamp

/-- Embedding of the per-clip GPS association in `processVideoClips`:
`clipStartTime = videoStart + i * segmentLength * 1000`,
`clipEndTime = clipStartTime + segmentLength * 1000`, and the filter
`recordTime >= clipStartTime && recordTime < clipEndTime` over the
track in its original order. -/
def clipGpsData (gps : List GPSRecord) (videoStart : Int)
    (segmentLength : Int) (i : Nat) : List GPSRecord :=
  let clipStartTime := videoStart + (i : Int) * segmentLength * 1000
  let clipEndTime := clipStartTime + segmentLength * 1000
  gps.filter fun r =>
    decide (clipStartTime ≤ r.timestamp) && decide (r.timestamp < clipEndTime)

/-!
Exact model of IEEE-754 binary64 ("double") rounding, used by the
clip-acceptance threshold `Math.abs(duration - segmentLength) < 0.1`.
The JS numbers involved are normal-range doubles, so a double is a
rational `m / 2 ^ (52 - e)` with `2 ^ 52 ≤ m < 2 ^ 53`, and every
arithmetic primitive rounds its exact rational result to the nearest
such value, ties to even.  The library's rational arithmetic is
irreducible by design, so these definitions are spelled on numerators
and denominators (`Rat.num`, `Rat.den`, `mkRat`), which the kernel
evaluates.
-/

/-- Floor of the base-2 logarithm, fuel-based so it evaluates by
kernel reduction (`Nat.log2` is defined by well-founded recursion). -/
def log2Aux : Nat → Nat → Nat
  | 0, _ => 0
  | fuel + 1, n => if n ≤ 1 then 0 else log2Aux fuel (n / 2) + 1

/-- Greatest `k` with `2 ^ k ≤ n`, for `n ≥ 1` (and `0` at `0`). -/
def log2floor (n : Nat) : Nat :=
  log2Aux n n

/-- Greatest `e : ℤ` with `2 ^ e ≤ n / d`, for `n, d ≥ 1`: the binary
exponent of the positive rational `n / d`.  For `n < d` the candidate
`c = log2floor (d / n)` satisfies `2 ^ c ≤ d / n < 2 ^ (c + 2)`, and
the test `d ≤ 2 ^ c * n` picks the least `k` with `2 ^ k ≥ d / n`. -/
def ratExp2 (n d : Nat) : Int :=
  if d ≤ n then (log2floor (n / d) : Int)
  else
    let c := log2floor (d / n)
    if d ≤ 2 ^ c * n then -(c : Int) else -((c : Int) + 1)

/-- Round the nonnegative rational `n / d` (with `d ≥ 1`) to the
nearest natural number, ties to even. -/
def roundHalfEvenPos (n d : Nat) : Nat :=
  let q := n / d
  let rem2 := 2 * (n % d)
  if rem2 < d then q
  else if d < rem2 then q + 1
  else if q % 2 = 0 then q else q + 1

/-- Round an exact rational to the nearest IEEE-754 binary64 value
(round to nearest, ties to even), for magnitudes in the normal range:
with `e` the binary exponent of `|q|`, the significand is `|q|` scaled
by `2 ^ (52 - e)` rounded half-to-even, and the result is the
significand scaled back.  This is exactly what every JS arithmetic
primitive and `parseFloat` do to their exact result. -/
def toDouble (q : ℚ) : ℚ :=
  let n := q.num.natAbs
  let d := q.den
  if n = 0 then 0
  else
    let e := ratExp2 n d
    let k := 52 - e
    let m :=
      if 0 ≤ k then roundHalfEvenPos (n * 2 ^ k.toNat) d
      else roundHalfEvenPos n (d * 2 ^ (-k).toNat)
    let sm : Int := if q.num < 0 then -(m : Int) else (m : Int)
    if 0 ≤ k then mkRat sm (2 ^ k.toNat)
    else mkRat (sm * 2 ^ (-k).toNat) 1

/-- Exact rational difference `a - b`, spelled on numerators and
denominators so that it evaluates by kernel reduction. -/
def qSub (a b : ℚ) : ℚ :=
  mkRat (a.num * (b.den : Int) - b.num * (a.den : Int)) (a.den * b.den)

/-- Exact comparison `a < b` on rationals by cross-multiplication
(denominators are positive). -/
def qLtB (a b : ℚ) : Bool :=
  a.num * (b.den : Int) < b.num * (a.den : Int)

/-- Exact absolute value on rationals (what `Math.abs` does to a
double: it never rounds). -/
def qAbs (a : ℚ) : ℚ :=
  mkRat (a.num.natAbs : Int) a.den

/-- The binary64 value of the literal `0.1` in the source. -/
def pointOneDouble : ℚ :=
  toDouble (mkRat 1 10)

/-- The clip-acceptance test of `processVideoClips`:
`Math.abs(duration - segmentLength) < 0.1` with `segmentLength = 10`,
over binary64 arithmetic: the subtraction rounds its exact result (10
is exactly representable), the absolute value and the comparison are
exact.  `duration` is the double that `parseFloat` produced for the
probed clip duration. -/
def clipAccepted (duration : ℚ) : Bool :=
  qLtB (qAbs (toDouble (qSub duration 10))) pointOneDouble

/-!
The processing pipeline of the primary edge function (`handler`
together with its helper `processVideoClips`), embedded as a pure
function from an oracle of external-effect outcomes (`PipelineEnv`)
and a starting state to a final state and an HTTP response.  The state
is the `video_metadata` row addressed by the request's
`videoMetadataId`, the inserted `video_clips` rows, and the run's
scratch-file footprint (`/tmp/input_*.mp4` and the `/tmp/clips_*`
directory).
-/

/-- The ffprobe result the handler consumes: `metadata.format.duration`
(absent or non-numeric modelled as `none`, matching the
`metadata.format?.duration ? ... : null` test) and the format tag
map. -/
structure FormatMetadata where
  duration : Option ℚ
  tags : List (String × String)
deriving DecidableEq

/-- The `video_metadata` row fields the pipeline reads or writes. -/
structure DbVideoRecord where
  status : String
  error : Option String
  duration : Option ℚ
  recordedAt : Option Int
  rawMetadata : Option FormatMetadata
  startLatitude : Option ℚ
  startLongitude : Option ℚ
  endLatitude : Option ℚ
  endLongitude : Option ℚ
deriving DecidableEq

/-- One inserted `video_clips` row. -/
structure ClipRow where
  videoId : String
  clipIndex : Nat
  duration : ℚ
  gpsRecords : List GPSRecord
  potholeDetected : Bool
deriving DecidableEq

/-- The outcome oracle for one produced clip file, in the lexically
sorted enumeration order of the clip directory: whether the per-clip
ffprobe invocation succeeds, the duration `parseFloat` yields when it
does, and whether the storage upload and the row insert succeed. -/
structure ClipFileInput where
  probeOk : Bool
  duration : ℚ
  uploadOk : Bool
  insertOk : Bool

/-- The request body and the outcomes of every external interaction of
one run.  `none` request fields model absent (or empty, hence falsy)
JSON fields.  `parseDate` is the JS date parser, `none` standing for
an Invalid Date; `now` is the wall clock at resolution time. -/
structure PipelineEnv where
  filePath : Option String
  userId : Option String
  cameraId : Option String
  videoMetadataId : Option String
  downloadOk : Bool
  probeResult : Option FormatMetadata
  rawGps : Option (List RawTriple)
  parseDate : String → Option Int
  now : Int
  metadataUpdateOk : Bool
  segmentOk : Bool
  clipFiles : List ClipFileInput

/-- The `video_metadata` row, the inserted clip rows, and whether the
run's scratch files currently exist on disk. -/
structure PipelineState where
  record : DbVideoRecord
  clips : List ClipRow
  tempFileExists : Bool
  clipDirExists : Bool

/-- The HTTP response of the handler: the 200 body carries
`gpsCount = gpsData.length`; the 500 body carries the error message. -/
structure HandlerResponse where
  success : Bool
  gpsCount : Option Nat
  errorMsg : Option String

/-- Step 2 of the handler: `update({ processing_status: 'processing' })`.
No other column is written; in particular `processing_error` is left
as it is. -/
def setProcessingUpdate (r : DbVideoRecord) : DbVideoRecord :=
  { r with status := "processing" }

/-- Step 7 of the handler: the `updateData` object.  It always carries
duration (possibly null), `recorded_at`, `raw_metadata`, and status
`completed`; the four coordinate columns are added only when the GPS
track is non-empty (`gpsData[0]` and `gpsData[gpsData.length - 1]`). -/
def applyMetadataUpdate (r : DbVideoRecord) (md : FormatMetadata)
    (videoStart : Int) (gps : List GPSRecord) : DbVideoRecord :=
  let base :=
    { r with
      duration := md.duration
      recordedAt := some videoStart
      rawMetadata := some md
      status := "completed" }
  match gps.head?, gps.getLast? with
  | some first, some last =>
    { base with
      startLatitude := some first.latitude
      startLongitude := some first.longitude
      endLatitude := some last.latitude
      endLongitude := some last.longitude }
  | _, _ => base

/-- The per-clip loop of `processVideoClips`, from clip-file index `i`
on.  Returns the inserted rows in order and `true` when the loop body
threw (a failed per-clip ffprobe), in which case the directory cleanup
below the loop is skipped.  A rejected duration, a failed upload
(`continue`) and a failed insert (its error object is never checked)
all skip the clip silently. -/
def clipLoop (videoId : String) (gps : List GPSRecord) (videoStart : Int)
    (i : Nat) : List ClipFileInput → List ClipRow × Bool
  | [] => ([], false)
  | f :: fs =>
    if !f.probeOk then ([], true)
    else if clipAccepted f.duration then
      let cgps := clipGpsData gps videoStart 10 i
      if !f.uploadOk then clipLoop videoId gps videoStart (i + 1) fs
      else if f.insertOk then
        let (rows, threw) := clipLoop videoId gps videoStart (i + 1) fs
        (⟨videoId, i, f.duration, cgps, false⟩ :: rows, threw)
      else clipLoop videoId gps videoStart (i + 1) fs
    else clipLoop videoId gps videoStart (i + 1) fs

/-- Embedding of `processVideoClips`: create the scratch clip
directory, segment (a throwing `ffmpeg` is caught by the function's
own catch, leaking the directory), run the per-clip loop, and remove
the directory only when nothing threw.  Every error is swallowed, so
the caller never fails because of this step.  Returns the inserted
rows and whether the clip directory is left behind. -/
def processVideoClips (env : PipelineEnv) (videoId : String)
    (gps : List GPSRecord) (videoStart : Int) : List ClipRow × Bool :=
  if !env.segmentOk then ([], true)
  else clipLoop videoId gps videoStart 0 env.clipFiles

/-- The catch block of the handler: when the request body carries a
`videoMetadataId`, the row is updated to status `failed` with the
thrown message; otherwise nothing is touched.  Scratch files are not
removed on this path. -/
def catchPath (env : PipelineEnv) (s : PipelineState) (msg : String) :
    PipelineState × HandlerResponse :=
  match env.videoMetadataId with
  | some _ =>
    ({ s with record := { s.record with status := "failed", error := some msg } },
      ⟨false, none, some msg⟩)
  | none => (s, ⟨false, none, some msg⟩)

/-- Embedding of the primary edge-function `handler`: validate, set
status `processing`, download to `/tmp`, probe, extract GPS when the
camera is a `garmin_dashcam` (a throwing extraction degrades to an
empty track), resolve the start time, write the metadata update
(status `completed`), process clips, remove the temp file, and answer
200; any throw lands in `catchPath`. -/
def runHandler (env : PipelineEnv) (s0 : PipelineState) :
    PipelineState × HandlerResponse :=
  if env.filePath = none ∨ env.userId = none ∨ env.cameraId = none then
    catchPath env s0 "Missing required parameters"
  else
    let s1 :=
      match env.videoMetadataId with
      | some _ => { s0 with record := setProcessingUpdate s0.record }
      | none => s0
    if !env.downloadOk then catchPath env s1 "Download failed"
    else
      let s2 := { s1 with tempFileExists := true }
      match env.probeResult with
      | none => catchPath env s2 "Command failed: ffprobe"
      | some md =>
        let gpsData :=
          if env.cameraId = some "garmin_dashcam" then
            match env.rawGps with
            | some found => parseGpsData found
            | none => []
          else []
        let videoStart := getVideoStartTime env.parseDate env.now md.tags gpsData
        if !env.metadataUpdateOk then catchPath env s2 "DB update failed"
        else
          let s3 :=
            match env.videoMetadataId with
            | some _ =>
              { s2 with record := applyMetadataUpdate s2.record md videoStart gpsData }
            | none => s2
          let videoId := env.videoMetadataId.getD ""
          let (rows, dirLeaked) := processVideoClips env videoId gpsData videoStart
          let s4 := { s3 with clips := s3.clips ++ rows, clipDirExists := dirLeaked }
          let s5 := { s4 with tempFileExists := false }
          (s5, ⟨true, some gpsData.length, none⟩)

/-- The outcome of scanning the tag map for one key, as the loop body
of the primary resolver treats it: the parsed time when the key is
present (truthy) and its stripped value parses, `none` when the key is
absent, empty, or unparseable.  `tryParseTags` tries the keys in order
and takes the first key that resolves. -/
def tagResolves (parseDate : String → Option Int)
    (tags : List (String × String)) (k : String) : Option Int :=
  match tags.lookup k with
  | some v => if v = "" then none else parseDate (stripUTC v)
  | none => none

/-- Embedding of the Express server's `isValidGpsCoordinate`:
`latitude ∈ [-90, 90]`, `longitude ∈ [-180, 180]`, and not exactly
`(0, 0)`.  The comparisons are spelled by cross-multiplication on
`Rat.num`/`Rat.den` (`-90 ≤ q ↔ -90 * q.den ≤ q.num`, `q = 0 ↔
q.num = 0`) so that they evaluate by kernel reduction; the `isNaN`
guards have no counterpart since `ℚ` has no NaN. -/
def isValidGpsCoordinate (latitude longitude : ℚ) : Bool :=
  decide (-90 * (latitude.den : Int) ≤ latitude.num) &&
  decide (latitude.num ≤ 90 * (latitude.den : Int)) &&
  decide (-180 * (longitude.den : Int) ≤ longitude.num) &&
  decide (longitude.num ≤ 180 * (longitude.den : Int)) &&
  !(decide (latitude.num = 0) && decide (longitude.num = 0))

/-- One accumulated entry of the Express server's ExifTool text
parser: the fields of `currentEntry`, each possibly unset. -/
structure ExifEntry where
  timestamp : Option String
  latitude : Option ℚ
  longitude : Option ℚ

/-- The record-conversion loop at the end of the server's
`extractGpsWithExifTool`: for each accumulated entry, push a record
iff `coord.latitude && coord.longitude &&
isValidGpsCoordinate(coord.latitude, coord.longitude)` — JS truthiness
makes an unset or zero coordinate falsy.  The pushed timestamp is
`new Date()`, the wall clock `now`. -/
def convertExifCoordinates (now : Int) (coords : List ExifEntry) :
    List GPSRecord :=
  coords.filterMap fun c =>
    match c.latitude, c.longitude with
    | some lat, some lon =>
      if decide (lat.num ≠ 0) && decide (lon.num ≠ 0) &&
          isValidGpsCoordinate lat lon then
        some ⟨now, lat, lon⟩
      else none
    | _, _ => none

/-- A fresh `video_metadata` row as upload creates it: status
`unprocessed`, no error, no derived metadata. -/
def freshRecord : DbVideoRecord :=
  ⟨"unprocessed", none, none, none, none, none, none, none, none⟩

/-- The state at the start of a first run: a fresh row, no clips, no
scratch files. -/
def s0Fresh : PipelineState :=
  ⟨freshRecord, [], false, false⟩

/-- The state of a previously failed run: status `failed` with a stale
`processing_error`, otherwise fresh. -/
def s0Failed : PipelineState :=
  ⟨{ freshRecord with status := "failed", error := some "previous failure" }, [],
    false, false⟩

/-- An environment in which every external interaction succeeds: a
non-Garmin camera (so no GPS extraction), a probe result with a
duration and no tags, and one clip file of exactly ten seconds whose
upload and insert succeed. -/
def envAllOk : PipelineEnv :=
  { filePath := some "videos/u/a.mp4"
    userId := some "u"
    cameraId := some "generic_camera"
    videoMetadataId := some "vid-1"
    downloadOk := true
    probeResult := some ⟨some 35, []⟩
    rawGps := none
    parseDate := fun _ => none
    now := 1700000000000
    metadataUpdateOk := true
    segmentOk := true
    clipFiles := [⟨true, 10, true, true⟩] }

/-- An environment whose probe reports no `format.duration` and whose
single accepted clip fails to upload. -/
def envNoDuration : PipelineEnv :=
  { envAllOk with
    probeResult := some ⟨none, []⟩
    clipFiles := [⟨true, 10, false, true⟩] }

/-- An environment in which the download succeeds and ffprobe then
exits non-zero. -/
def envProbeFails : PipelineEnv :=
  { envAllOk with probeResult := none, clipFiles := [] }

/-- An environment whose request body lacks `filePath` but still
carries a `videoMetadataId`. -/
def envNoFilePath : PipelineEnv :=
  { envAllOk with filePath := none }

/-- A date parser accepting every string, standing in for the external
JS `Date` parser on inputs where it succeeds. -/
def pdOne : String → Option Int :=
  fun _ => some 1705312800000

/-- The binary64 value of `10 + 0.1`: the unique double whose exact
distance from 10 equals the double `0.1`. -/
def tenPlusTenth : ℚ :=
  mkRat 363890849891536077 36028797018963968

/-!
Helper lemmas, shared by the claim theorems below.
-/

/-- The catch block always answers a 500 body carrying the message. -/
theorem catchPath_snd (env : PipelineEnv) (s : PipelineState) (msg : String) :
    (catchPath env s msg).2 = ⟨false, none, some msg⟩ := by
  unfold catchPath
  cases env.videoMetadataId <;> rfl

/-- The shape of a run on the all-checks-pass path: validation and
download succeed, the probe answers `md`, and the metadata write goes
through.  The final state and the 200 response, with the GPS track,
start time, row update and clip outcome spelled out. -/
theorem runHandler_success_eq (env : PipelineEnv) (s0 : PipelineState)
    (hval : ¬(env.filePath = none ∨ env.userId = none ∨ env.cameraId = none))
    (hdl : env.downloadOk = true) (md : FormatMetadata)
    (hpr : env.probeResult = some md) (hmu : env.metadataUpdateOk = true) :
    runHandler env s0 =
      (let gpsData := if env.cameraId = some "garmin_dashcam" then
          match env.rawGps with
          | some found => parseGpsData found
          | none => []
        else []
       let videoStart := getVideoStartTime env.parseDate env.now md.tags gpsData
       let rec1 := match env.videoMetadataId with
         | some _ =>
           applyMetadataUpdate (setProcessingUpdate s0.record) md videoStart gpsData
         | none => s0.record
       let pr := processVideoClips env (env.videoMetadataId.getD "") gpsData videoStart
       (⟨rec1, s0.clips ++ pr.1, false, pr.2⟩, ⟨true, some gpsData.length, none⟩)) := by
  simp only [runHandler, hval, hdl, hpr, hmu, Bool.not_true, if_false, ite_true,
    ite_false, if_neg hval]
  rcases hvid : env.videoMetadataId with - | vid <;> simp only [hvid] <;> rfl

/-- Scanning the key list head first: the head key resolving wins,
otherwise the tail is scanned. -/
theorem tryParseTags_cons (pd : String → Option Int)
    (tags : List (String × String)) (k : String) (ks : List String) :
    tryParseTags pd tags (k :: ks) =
      match tagResolves pd tags k with
      | some t => some t
      | none => tryParseTags pd tags ks := by
  conv_lhs => unfold tryParseTags
  unfold tagResolves
  cases tags.lookup k with
  | none => rfl
  | some v =>
    dsimp only
    by_cases hv : v = ""
    · subst hv
      simp
    · rw [if_neg hv, if_neg hv]

/-- The metadata update always writes the probed duration, the
resolved start, the raw blob, and status `completed`; it never touches
the error column. -/
theorem applyMetadataUpdate_base (r : DbVideoRecord) (md : FormatMetadata)
    (t : Int) (gps : List GPSRecord) :
    (applyMetadataUpdate r md t gps).status = "completed" ∧
    (applyMetadataUpdate r md t gps).recordedAt = some t ∧
    (applyMetadataUpdate r md t gps).rawMetadata = some md ∧
    (applyMetadataUpdate r md t gps).duration = md.duration ∧
    (applyMetadataUpdate r md t gps).error = r.error := by
  unfold applyMetadataUpdate
  cases gps.head? <;> cases gps.getLast? <;> exact ⟨rfl, rfl, rfl, rfl, rfl⟩

/-- The metadata update of a run with an empty track never touches the
four coordinate columns. -/
theorem applyMetadataUpdate_nil_coords (r : DbVideoRecord)
    (md : FormatMetadata) (t : Int) :
    (applyMetadataUpdate r md t []).startLatitude = r.startLatitude ∧
    (applyMetadataUpdate r md t []).startLongitude = r.startLongitude ∧
    (applyMetadataUpdate r md t []).endLatitude = r.endLatitude ∧
    (applyMetadataUpdate r md t []).endLongitude = r.endLongitude :=
  ⟨rfl, rfl, rfl, rfl⟩

/-- When every per-clip probe succeeds, the clip loop finishes without
throwing, so the directory cleanup below it runs. -/
theorem clipLoop_no_throw (vid : String) (gps : List GPSRecord) (vs : Int) :
    ∀ (fs : List ClipFileInput) (i : Nat), (∀ f ∈ fs, f.probeOk = true) →
      (clipLoop vid gps vs i fs).2 = false := by
  intro fs
  induction fs with
  | nil => intro i _; rfl
  | cons f fs ih =>
    intro i hall
    have hf : f.probeOk = true := hall f (List.mem_cons_self f fs)
    have hfs : ∀ g ∈ fs, g.probeOk = true :=
      fun g hg => hall g (List.mem_cons_of_mem f hg)
    unfold clipLoop
    simp only [hf, Bool.not_true, Bool.false_eq_true, if_false]
    by_cases hacc : clipAccepted f.duration
    · simp only [hacc, if_true]
      by_cases hup : f.uploadOk
      · simp only [hup, Bool.not_true, Bool.false_eq_true, if_false]
        by_cases hins : f.insertOk
        · simp only [hins, if_true]
          exact ih (i + 1) hfs
        · simp only [hins, if_false]
          exact ih (i + 1) hfs
      · simp only [hup, Bool.not_false, if_true]
        exact ih (i + 1) hfs
    · simp only [hacc, if_false]
      exact ih (i + 1) hfs

/-- When segmentation and every per-clip probe succeed, the clip step
removes its scratch directory. -/
theorem processVideoClips_no_throw (env : PipelineEnv) (vid : String)
    (gps : List GPSRecord) (vs : Int) (hseg : env.segmentOk = true)
    (hprobe : ∀ f ∈ env.clipFiles, f.probeOk = true) :
    (processVideoClips env vid gps vs).2 = false := by
  unfold processVideoClips
  simp only [hseg, Bool.not_true, Bool.false_eq_true, if_false]
  exact clipLoop_no_throw vid gps vs env.clipFiles 0 hprobe

/-- Every row the clip loop inserts comes from an accepted clip. -/
theorem clipLoop_rows_accepted (vid : String) (gps : List GPSRecord)
    (vs : Int) :
    ∀ (fs : List ClipFileInput) (i : Nat) (r : ClipRow),
      r ∈ (clipLoop vid gps vs i fs).1 → clipAccepted r.duration = true := by
  intro fs
  induction fs with
  | nil => intro i r h; simp [clipLoop] at h
  | cons f fs ih =>
    intro i r h
    unfold clipLoop at h
    by_cases hp : f.probeOk
    · simp only [hp, Bool.not_true, Bool.false_eq_true, if_false] at h
      by_cases hacc : clipAccepted f.duration
      · simp only [hacc, if_true] at h
        by_cases hup : f.uploadOk
        · simp only [hup, Bool.not_true, Bool.false_eq_true, if_false] at h
          by_cases hins : f.insertOk
          · simp only [hins, if_true] at h
            rcases List.mem_cons.mp h with hr | hr
            · subst hr; exact hacc
            · exact ih (i + 1) r hr
          · simp only [hins, if_false] at h
            exact ih (i + 1) r h
        · simp only [hup, Bool.not_false, if_true] at h
          exact ih (i + 1) r h
      · simp only [hacc, if_false] at h
        exact ih (i + 1) r h
    · simp only [hp, Bool.not_false, if_true] at h
      simp at h

/-- With an empty track every inserted row carries an empty GPS
subset. -/
theorem clipLoop_nil_gps (vid : String) (vs : Int) :
    ∀ (fs : List ClipFileInput) (i : Nat) (r : ClipRow),
      r ∈ (clipLoop vid [] vs i fs).1 → r.gpsRecords = [] := by
  intro fs
  induction fs with
  | nil => intro i r h; simp [clipLoop] at h
  | cons f fs ih =>
    intro i r h
    unfold clipLoop at h
    by_cases hp : f.probeOk
    · simp only [hp, Bool.not_true, Bool.false_eq_true, if_false] at h
      by_cases hacc : clipAccepted f.duration
      · simp only [hacc, if_true] at h
        by_cases hup : f.uploadOk
        · simp only [hup, Bool.not_true, Bool.false_eq_true, if_false] at h
          by_cases hins : f.insertOk
          · simp only [hins, if_true] at h
            rcases List.mem_cons.mp h with hr | hr
            · subst hr; rfl
            · exact ih (i + 1) r hr
          · simp only [hins, if_false] at h
            exact ih (i + 1) r h
        · simp only [hup, Bool.not_false, if_true] at h
          exact ih (i + 1) r h
      · simp only [hacc, if_false] at h
        exact ih (i + 1) r h
    · simp only [hp, Bool.not_false, if_true] at h
      simp at h

/-- The exact strict comparison is irreflexive. -/
theorem qLtB_self (a : ℚ) : qLtB a a = false := by
  simp [qLtB]

/-- C4 counterexample: the claim fails on the variant resolver of the
second edge function.  With the tag `encoded_date = "garbage"` (which
does not parse) and a GPS track whose first point is at 42, the claim
mandates the result 42; the variant returns the Invalid Date `none`
because `new Date` never throws and no parse check is made, while the
primary resolver does return 42 at the same input. -/
theorem getVideoStartTimeVariant_counterexample :
    getVideoStartTimeVariant (fun _ => none) 999
        [("encoded_date", "garbage")] [⟨42, 1, 1⟩] = none ∧
    getVideoStartTimeVariant (fun _ => none) 999
        [("encoded_date", "garbage")] [⟨42, 1, 1⟩] ≠ some 42 ∧
    getVideoStartTime (fun _ => none) 999
        [("encoded_date", "garbage")] [⟨42, 1, 1⟩] = 42 := by
  refine ⟨rfl, ?_, rfl⟩
  intro h
  simp [getVideoStartTimeVariant, firstPresentTag, stripUTC, replaceFirst] at h

/-- C4 (amended, proved on the primary resolver): the resolved start
time follows the exact priority — the first key of
`encoded_date, creation_time` that is present and whose stripped value
parses wins regardless of the GPS track; a tag that fails to parse
never yields the result; with no resolving tag a non-empty track
yields its first point's timestamp; otherwise the current wall clock
is returned. -/
theorem getVideoStartTime_priority (pd : String → Option Int) (now : Int)
    (tags : List (String × String)) (gps : List GPSRecord) :
    (∀ t, tagResolves pd tags "encoded_date" = some t →
      getVideoStartTime pd now tags gps = t) ∧
    (tagResolves pd tags "encoded_date" = none →
      ∀ t, tagResolves pd tags "creation_time" = some t →
        getVideoStartTime pd now tags gps = t) ∧
    (tagResolves pd tags "encoded_date" = none →
      tagResolves pd tags "creation_time" = none →
      ∀ p l, gps = p :: l → getVideoStartTime pd now tags gps = p.timestamp) ∧
    (tagResolves pd tags "encoded_date" = none →
      tagResolves pd tags "creation_time" = none →
      gps = [] → getVideoStartTime pd now tags gps = now) := by
  unfold getVideoStartTime
  rw [tryParseTags_cons, tryParseTags_cons]
  refine ⟨?_, ?_, ?_, ?_⟩
  · intro t h
    rw [h]
  · intro h1 t h2
    rw [h1, h2]
  · intro h1 h2 p l hg
    rw [h1, h2, hg]
    rfl
  · intro h1 h2 hg
    rw [h1, h2, hg]
    rfl

/-- C4 witness: a present, parseable `encoded_date` tag is returned
even though a GPS point with an earlier timestamp exists. -/
theorem getVideoStartTime_priority_witness :
    getVideoStartTime pdOne 999
        [("encoded_date", "2024-01-15T10:00:00 UTC")]
        [⟨42, 1, 1⟩] = 1705312800000 :=
  (getVideoStartTime_priority pdOne 999
      [("encoded_date", "2024-01-15T10:00:00 UTC")]
      [⟨42, 1, 1⟩]).1 1705312800000 rfl

/-- C5: the GPS subset of the clip at file index `i` is exactly the
points of the track whose timestamp lies in the half-open window
`[T + 10s * i, T + 10s * (i+1))` (milliseconds), in original order
(sublist of the track), and a point exactly on a window boundary
belongs to the window that boundary opens, never the one it closes. -/
theorem clipGpsData_window (gps : List GPSRecord) (T : Int) (i : Nat) :
    (∀ r : GPSRecord, r ∈ clipGpsData gps T 10 i ↔
      r ∈ gps ∧ T + 10 * 1000 * i ≤ r.timestamp ∧
        r.timestamp < T + 10 * 1000 * (i + 1)) ∧
    (clipGpsData gps T 10 i).Sublist gps ∧
    (∀ r : GPSRecord, r ∈ gps → r.timestamp = T + 10 * 1000 * (i + 1) →
      r ∉ clipGpsData gps T 10 i ∧ r ∈ clipGpsData gps T 10 (i + 1)) := by
  have hmem : ∀ (j : Nat) (r : GPSRecord), r ∈ clipGpsData gps T 10 j ↔
      r ∈ gps ∧ T + 10 * 1000 * j ≤ r.timestamp ∧
        r.timestamp < T + 10 * 1000 * (j + 1) := by
    intro j r
    unfold clipGpsData
    rw [List.mem_filter]
    simp only [Bool.and_eq_true, decide_eq_true_eq]
    constructor
    · rintro ⟨hr, h1, h2⟩
      refine ⟨hr, ?_, ?_⟩ <;> push_cast at h1 h2 ⊢ <;> omega
    · rintro ⟨hr, h1, h2⟩
      refine ⟨hr, ?_, ?_⟩ <;> push_cast at h1 h2 ⊢ <;> omega
  refine ⟨hmem i, List.filter_sublist _, ?_⟩
  intro r hr hb
  constructor
  · intro hin
    rcases (hmem i r).mp hin with ⟨-, -, hlt⟩
    omega
  · refine (hmem (i + 1) r).mpr ⟨hr, ?_, ?_⟩ <;> push_cast <;> omega

/-- C5 witness: the documented scenario — start time 0, points at
0 ms, 9999 ms, 10000 ms, 19000 ms — the boundary point at exactly
10000 ms is excluded from clip 0 and included in clip 1. -/
theorem clipGpsData_window_witness :
    (⟨10000, 1, 1⟩ : GPSRecord) ∉
      clipGpsData [⟨0, 1, 1⟩, ⟨9999, 1, 1⟩, ⟨10000, 1, 1⟩, ⟨19000, 1, 1⟩] 0 10 0 ∧
    (⟨10000, 1, 1⟩ : GPSRecord) ∈
      clipGpsData [⟨0, 1, 1⟩, ⟨9999, 1, 1⟩, ⟨10000, 1, 1⟩, ⟨19000, 1, 1⟩] 0 10 1 :=
  (clipGpsData_window [⟨0, 1, 1⟩, ⟨9999, 1, 1⟩, ⟨10000, 1, 1⟩, ⟨19000, 1, 1⟩]
      0 0).2.2 ⟨10000, 1, 1⟩ (by decide) (by decide)

/-- C6: the acceptance test is the pure binary64 threshold
`abs(d - 10) < 0.1` with an exclusive bound: the doubles parsed from
`10.09`, `9.90` and `10.10` are accepted, the one parsed from `9.89`
is rejected, any duration whose rounded distance from 10 is exactly
the double `0.1` is rejected, and rejected clips yield no row — every
row the clip loop inserts is an accepted clip (rejection never makes
the loop, hence the run, fail). -/
theorem clipAccepted_threshold :
    clipAccepted (toDouble (mkRat 1009 100)) = true ∧
    clipAccepted (toDouble (mkRat 989 100)) = false ∧
    clipAccepted (toDouble (mkRat 99 10)) = true ∧
    clipAccepted (toDouble (mkRat 101 10)) = true ∧
    (∀ d : ℚ, qAbs (toDouble (qSub d 10)) = pointOneDouble →
      clipAccepted d = false) ∧
    (∀ (vid : String) (gps : List GPSRecord) (vs : Int)
        (fs : List ClipFileInput) (i : Nat) (r : ClipRow),
      r ∈ (clipLoop vid gps vs i fs).1 → clipAccepted r.duration = true) := by
  refine ⟨by decide, by decide, by decide, by decide, ?_, ?_⟩
  · intro d h
    unfold clipAccepted
    rw [h]
    exact qLtB_self pointOneDouble
  · intro vid gps vs fs i r h
    exact clipLoop_rows_accepted vid gps vs fs i r h

/-- C6 witness: the double `10 + 0.1` is at rounded distance exactly
the double `0.1` from 10 and is rejected; and a concrete row inserted
by the clip loop has an accepted duration. -/
theorem clipAccepted_threshold_witness :
    clipAccepted tenPlusTenth = false ∧
    clipAccepted ((10 : ℚ)) = true :=
  ⟨clipAccepted_threshold.2.2.2.2.1 tenPlusTenth (by decide),
    clipAccepted_threshold.2.2.2.2.2 "v" [] 0 [⟨true, 10, true, true⟩] 0
      ⟨"v", 0, 10, [], false⟩ (by decide)⟩

/-- C7 counterexample: the pipeline's GPS extractor (`parseGpsData` in
the edge functions) performs no validity filtering at all — a parsed
sample with latitude 95.5, outside `[-90, 90]` and rejected by the
server's `isValidGpsCoordinate`, appears in the returned track. -/
theorem parseGpsData_counterexample :
    parseGpsData [⟨100, mkRat 191 2, 10⟩] = [⟨100, mkRat 191 2, 10⟩] ∧
    isValidGpsCoordinate (mkRat 191 2) 10 = false := by
  constructor
  · rfl
  · decide

/-- C7 (amended, proved on the server's extraction): every record the
Express server's ExifTool conversion loop keeps satisfies
`isValidGpsCoordinate` — out-of-range and exactly-(0,0) samples are
discarded there; the edge functions' `parseGpsData` performs no such
filtering. -/
theorem convertExifCoordinates_valid (now : Int) (coords : List ExifEntry)
    (r : GPSRecord) (h : r ∈ convertExifCoordinates now coords) :
    isValidGpsCoordinate r.latitude r.longitude = true := by
  unfold convertExifCoordinates at h
  rw [List.mem_filterMap] at h
  obtain ⟨c, -, hr⟩ := h
  rcases hlat : c.latitude with - | lat <;> rw [hlat] at hr
  · simp at hr
  · rcases hlon : c.longitude with - | lon <;> rw [hlon] at hr
    · simp at hr
    · dsimp only at hr
      by_cases hcond : (decide (lat.num ≠ 0) && decide (lon.num ≠ 0) &&
          isValidGpsCoordinate lat lon) = true
      · rw [if_pos hcond] at hr
        cases hr
        exact (Bool.and_eq_true_iff.mp hcond).2
      · rw [if_neg hcond] at hr
        cases hr

/-- C7 witness: a concrete in-range entry is kept and satisfies the
validity predicate. -/
theorem convertExifCoordinates_valid_witness :
    isValidGpsCoordinate
      ((⟨0, 45, 7⟩ : GPSRecord)).latitude
      ((⟨0, 45, 7⟩ : GPSRecord)).longitude = true :=
  convertExifCoordinates_valid 0 [⟨none, some 45, some 7⟩] ⟨0, 45, 7⟩
    (by decide)

/-- C8 counterexample: a dump with two well-formed triples sharing one
timestamp yields a track that is not strictly sorted ascending — the
universally quantified claim fails; the point count is still 2. -/
theorem parseGpsData_counterexample_strict :
    (parseGpsData [⟨5, 1, 2⟩, ⟨5, 3, 4⟩]).length = 2 ∧
    ¬ List.Pairwise (fun a b : GPSRecord => a.timestamp < b.timestamp)
        (parseGpsData [⟨5, 1, 2⟩, ⟨5, 3, 4⟩]) := by
  constructor
  · rfl
  · decide

/-- C8 (amended): for every list of well-formed matches the extracted
track has exactly as many points, is sorted non-decreasing (strict
whenever the input timestamps are pairwise distinct) by timestamp, and
is a permutation of the records parsed from the input — no duplicates
are introduced or dropped. -/
theorem parseGpsData_length_sorted_perm (ms : List RawTriple) :
    (parseGpsData ms).length = ms.length ∧
    (parseGpsData ms).Sorted gpsLe ∧
    (parseGpsData ms).Perm (ms.map RawTriple.toRecord) := by
  unfold parseGpsData
  refine ⟨?_, ?_, ?_⟩
  · rw [(List.perm_insertionSort gpsLe (ms.map RawTriple.toRecord)).length_eq]
    simp
  · exact List.sorted_insertionSort gpsLe (ms.map RawTriple.toRecord)
  · exact List.perm_insertionSort gpsLe (ms.map RawTriple.toRecord)

/-- C1 counterexample: a fully successful run whose probe reports no
`format.duration` and whose single accepted ten-second clip fails to
upload ends with status `completed`, a null duration, and no persisted
Clip record for the accepted clip — the claimed invariant fails. -/
theorem runHandler_completed_counterexample :
    (runHandler envNoDuration s0Fresh).2.success = true ∧
    (runHandler envNoDuration s0Fresh).1.record.status = "completed" ∧
    (runHandler envNoDuration s0Fresh).1.record.duration = none ∧
    clipAccepted (10 : ℚ) = true ∧
    (runHandler envNoDuration s0Fresh).1.clips = [] := by
  refine ⟨by decide, by decide, by decide, by decide, by decide⟩

/-- C1 (amended): in the final state of a run that answers success
(and addresses an existing row), the status is `completed` and the
recorded-start and raw metadata are set; the duration is whatever the
probe reported (possibly null), and an accepted clip has a persisted
record only when its upload and insert both succeeded. -/
theorem runHandler_completed_metadata (env : PipelineEnv) (s0 : PipelineState)
    (hid : env.videoMetadataId.isSome = true)
    (h : (runHandler env s0).2.success = true) :
    (runHandler env s0).1.record.status = "completed" ∧
    (runHandler env s0).1.record.recordedAt.isSome = true ∧
    (runHandler env s0).1.record.rawMetadata.isSome = true := by
  obtain ⟨vid, hvid⟩ := Option.isSome_iff_exists.mp hid
  by_cases hval : env.filePath = none ∨ env.userId = none ∨ env.cameraId = none
  · simp [runHandler, hval, catchPath, hvid] at h
  · by_cases hdl : env.downloadOk = true
    · rcases hpr : env.probeResult with - | md
      · simp [runHandler, hval, hdl, hpr, catchPath, hvid] at h
      · by_cases hmu : env.metadataUpdateOk = true
        · simp only [runHandler, hval, hdl, hpr, hmu, hvid] at h ⊢
          simp only [if_false, Bool.not_true, ite_false, ite_true, if_neg hval]
          obtain ⟨h1, h2, h3, -, -⟩ :=
            applyMetadataUpdate_base (setProcessingUpdate s0.record) md
              (getVideoStartTime env.parseDate env.now md.tags
                (if env.cameraId = some "garmin_dashcam" then
                  match env.rawGps with
                  | some found => parseGpsData found
                  | none => []
                 else []))
              (if env.cameraId = some "garmin_dashcam" then
                match env.rawGps with
                | some found => parseGpsData found
                | none => []
               else [])
          simp [h1, h2, h3]
        · simp [runHandler, hval, hdl, hpr, hmu, catchPath, hvid] at h
    · simp [runHandler, hval, hdl, catchPath, hvid] at h

/-- C1 witness: the all-successful run ends completed with
recorded-start and raw metadata set. -/
theorem runHandler_completed_metadata_witness :
    (runHandler envAllOk s0Fresh).1.record.status = "completed" ∧
    (runHandler envAllOk s0Fresh).1.record.recordedAt.isSome = true ∧
    (runHandler envAllOk s0Fresh).1.record.rawMetadata.isSome = true :=
  runHandler_completed_metadata envAllOk s0Fresh (by decide) (by decide)

/-- C2 counterexample: when the download succeeds and ffprobe then
fails, the handler throws past the cleanup line — the run ends with
the downloaded temp file still on disk, refuting guaranteed cleanup on
thrown paths. -/
theorem runHandler_cleanup_counterexample :
    (runHandler envProbeFails s0Fresh).2.success = false ∧
    (runHandler envProbeFails s0Fresh).1.tempFileExists = true := by
  refine ⟨by decide, by decide⟩

/-- C2 (amended): scratch files are released only on the non-throwing
paths — a run that answers success deletes the temp input file, and
also the clip directory provided segmentation and every per-clip probe
succeeded; on thrown fatal paths no cleanup runs. -/
theorem runHandler_cleanup_on_success (env : PipelineEnv) (s0 : PipelineState)
    (h : (runHandler env s0).2.success = true)
    (hseg : env.segmentOk = true)
    (hprobe : ∀ f ∈ env.clipFiles, f.probeOk = true) :
    (runHandler env s0).1.tempFileExists = false ∧
    (runHandler env s0).1.clipDirExists = false := by
  by_cases hval : env.filePath = none ∨ env.userId = none ∨ env.cameraId = none
  · simp [runHandler, hval, catchPath_snd] at h
  · by_cases hdl : env.downloadOk = true
    · rcases hpr : env.probeResult with - | md
      · simp [runHandler, hval, hdl, hpr, catchPath_snd] at h
      · by_cases hmu : env.metadataUpdateOk = true
        · rw [runHandler_success_eq env s0 hval hdl md hpr hmu]
          exact ⟨rfl, processVideoClips_no_throw env _ _ _ hseg hprobe⟩
        · simp [runHandler, hval, hdl, hpr, hmu, catchPath_snd] at h
    · simp [runHandler, hval, hdl, catchPath_snd] at h

/-- C2 witness: the all-successful run leaves no scratch files. -/
theorem runHandler_cleanup_on_success_witness :
    (runHandler envAllOk s0Fresh).1.tempFileExists = false ∧
    (runHandler envAllOk s0Fresh).1.clipDirExists = false :=
  runHandler_cleanup_on_success envAllOk s0Fresh (by decide) (by decide)
    (by decide)

/-- C3 counterexample: a request lacking `filePath` but carrying a
`videoMetadataId` does throw the validation error, yet the catch block
then mutates the row — the previously `unprocessed`, error-free record
ends as `failed` with the validation message, refuting no state
mutation. -/
theorem runHandler_validation_counterexample :
    s0Fresh.record.status = "unprocessed" ∧
    s0Fresh.record.error = none ∧
    (runHandler envNoFilePath s0Fresh).1.record.status = "failed" ∧
    (runHandler envNoFilePath s0Fresh).1.record.error =
      some "Missing required parameters" := by
  refine ⟨rfl, rfl, by decide, by decide⟩

/-- C3 (amended): a run with a missing required field fails with the
validation message before reaching the status-`processing` step; the
row is untouched when the request carries no `videoMetadataId`, but
when it does, the catch block sets the row to `failed` with the
validation message. -/
theorem runHandler_validation (env : PipelineEnv) (s0 : PipelineState)
    (h : env.filePath = none ∨ env.userId = none ∨ env.cameraId = none) :
    ((runHandler env s0).2.success = false ∧
      (runHandler env s0).2.errorMsg = some "Missing required parameters") ∧
    (env.videoMetadataId = none → (runHandler env s0).1 = s0) ∧
    (∀ vid, env.videoMetadataId = some vid →
      (runHandler env s0).1 =
        { s0 with record :=
            { s0.record with
                status := "failed"
                error := some "Missing required parameters" } }) := by
  unfold runHandler
  rw [if_pos h]
  refine ⟨?_, ?_, ?_⟩
  · rw [catchPath_snd]
    exact ⟨rfl, rfl⟩
  · intro hid
    unfold catchPath
    rw [hid]
  · intro vid hid
    unfold catchPath
    rw [hid]

/-- C3 witness: with no `videoMetadataId` in the body, a validation
failure leaves the state exactly as it was. -/
theorem runHandler_validation_witness :
    (runHandler { envNoFilePath with videoMetadataId := none } s0Fresh).1 =
      s0Fresh :=
  (runHandler_validation { envNoFilePath with videoMetadataId := none }
      s0Fresh (Or.inl rfl)).2.1 rfl

/-- C9 counterexample: re-running a previously failed asset through a
fully successful run ends `completed` with the stale
`processing_error` still in place — no step of the pipeline clears
it. -/
theorem runHandler_stale_error_counterexample :
    s0Failed.record.error = some "previous failure" ∧
    (runHandler envAllOk s0Failed).2.success = true ∧
    (runHandler envAllOk s0Failed).1.record.status = "completed" ∧
    (runHandler envAllOk s0Failed).1.record.error =
      some "previous failure" := by
  refine ⟨rfl, by decide, by decide, by decide⟩

/-- C9 (amended): step 2 sets the status to `processing` but does not
clear the prior error — the update writes no other column — and a run
that answers success ends with `processing_error` exactly as it
started. -/
theorem setProcessing_no_error_clear :
    (∀ r : DbVideoRecord, (setProcessingUpdate r).status = "processing" ∧
      (setProcessingUpdate r).error = r.error) ∧
    (∀ (env : PipelineEnv) (s0 : PipelineState),
      (runHandler env s0).2.success = true →
        (runHandler env s0).1.record.error = s0.record.error) := by
  refine ⟨fun r => ⟨rfl, rfl⟩, ?_⟩
  intro env s0 h
  by_cases hval : env.filePath = none ∨ env.userId = none ∨ env.cameraId = none
  · simp [runHandler, hval, catchPath_snd] at h
  · by_cases hdl : env.downloadOk = true
    · rcases hpr : env.probeResult with - | md
      · simp [runHandler, hval, hdl, hpr, catchPath_snd] at h
      · by_cases hmu : env.metadataUpdateOk = true
        · rw [runHandler_success_eq env s0 hval hdl md hpr hmu]
          rcases hvid : env.videoMetadataId with - | vid
          · rfl
          · exact ((applyMetadataUpdate_base (setProcessingUpdate s0.record)
              md _ _).2.2.2.2).trans rfl
        · simp [runHandler, hval, hdl, hpr, hmu, catchPath_snd] at h
    · simp [runHandler, hval, hdl, catchPath_snd] at h

/-- C9 witness: the successful re-run of the failed asset preserves
the stale error verbatim. -/
theorem setProcessing_no_error_clear_witness :
    (runHandler envAllOk s0Failed).1.record.error = s0Failed.record.error :=
  setProcessing_no_error_clear.2 envAllOk s0Failed (by decide)

/-- C10: a successful run whose camera type is not `garmin_dashcam`
skips GPS extraction entirely — the reported GPS count is zero, every
clip record inserted by the run carries an empty GPS subset, and none
of the four start/end coordinate columns is written. -/
theorem runHandler_non_garmin (env : PipelineEnv) (s0 : PipelineState)
    (c : String) (hc : env.cameraId = some c) (hne : c ≠ "garmin_dashcam")
    (hclips : s0.clips = [])
    (h : (runHandler env s0).2.success = true) :
    (runHandler env s0).2.gpsCount = some 0 ∧
    (∀ row ∈ (runHandler env s0).1.clips, row.gpsRecords = []) ∧
    (runHandler env s0).1.record.startLatitude = s0.record.startLatitude ∧
    (runHandler env s0).1.record.startLongitude = s0.record.startLongitude ∧
    (runHandler env s0).1.record.endLatitude = s0.record.endLatitude ∧
    (runHandler env s0).1.record.endLongitude = s0.record.endLongitude := by
  have hcam : ¬ env.cameraId = some "garmin_dashcam" := by
    rw [hc]
    intro hcc
    exact hne (Option.some.injEq _ _ ▸ hcc)
  by_cases hval : env.filePath = none ∨ env.userId = none ∨ env.cameraId = none
  · simp [runHandler, hval, catchPath_snd] at h
  · by_cases hdl : env.downloadOk = true
    · rcases hpr : env.probeResult with - | md
      · simp [runHandler, hval, hdl, hpr, catchPath_snd] at h
      · by_cases hmu : env.metadataUpdateOk = true
        · rw [runHandler_success_eq env s0 hval hdl md hpr hmu]
          simp only [if_neg hcam]
          refine ⟨rfl, ?_, ?_⟩
          · intro row hrow
            simp only [hclips, List.nil_append] at hrow
            by_cases hseg : env.segmentOk = true
            · rw [show processVideoClips env (env.videoMetadataId.getD "") []
                  (getVideoStartTime env.parseDate env.now md.tags []) =
                  clipLoop (env.videoMetadataId.getD "") []
                    (getVideoStartTime env.parseDate env.now md.tags [])
                    0 env.clipFiles by
                unfold processVideoClips
                simp [hseg]] at hrow
              exact clipLoop_nil_gps _ _ env.clipFiles 0 row hrow
            · rw [show processVideoClips env (env.videoMetadataId.getD "") []
                  (getVideoStartTime env.parseDate env.now md.tags []) =
                  ([], true) by
                unfold processVideoClips
                simp [hseg]] at hrow
              simp at hrow
          · obtain ⟨c1, c2, c3, c4⟩ :=
              applyMetadataUpdate_nil_coords (setProcessingUpdate s0.record) md
                (getVideoStartTime env.parseDate env.now md.tags [])
            rcases hvid : env.videoMetadataId with - | vid
            · exact ⟨rfl, rfl, rfl, rfl⟩
            · exact ⟨c1.trans rfl, c2.trans rfl, c3.trans rfl, c4.trans rfl⟩
        · simp [runHandler, hval, hdl, hpr, hmu, catchPath_snd] at h
    · simp [runHandler, hval, hdl, catchPath_snd] at h

/-- C10 witness: the successful non-Garmin run reports zero GPS
points, keeps the coordinate columns absent, and its inserted clip row
has an empty GPS subset. -/
theorem runHandler_non_garmin_witness :
    (runHandler envAllOk s0Fresh).2.gpsCount = some 0 ∧
    (∀ row ∈ (runHandler envAllOk s0Fresh).1.clips, row.gpsRecords = []) ∧
    (runHandler envAllOk s0Fresh).1.record.startLatitude =
      s0Fresh.record.startLatitude ∧
    (runHandler envAllOk s0Fresh).1.record.startLongitude =
      s0Fresh.record.startLongitude ∧
    (runHandler envAllOk s0Fresh).1.record.endLatitude =
      s0Fresh.record.endLatitude ∧
    (runHandler envAllOk s0Fresh).1.record.endLongitude =
      s0Fresh.record.endLongitude :=
  runHandler_non_garmin envAllOk s0Fresh "generic_camera" rfl
    (by decide) rfl (by decide)
